import Mathlib

/-
Verification of the hoomd-blue scripting-layer force wrappers
(`hoomd/md/force.py`): the `_force` base class (enable / disable /
benchmark lifecycle), the `constant` force (`set_force`), and the
`active` force constructor (input validation and engine configuration).

The Python classes are shallowly embedded: the mutable attributes of a
force object become a `ForceState` record, the global system's compute
registry (`hoomd.context.current.system` add/removeCompute) becomes a
`SysState` record, and each method becomes a function returning
`Except PyError` mirroring Python's `raise RuntimeError` control flow.
Calls into the opaque native engine (`_hoomd` / `_md`) are recorded as
data (the arguments forwarded), not executed; the validation the native
`ActiveForceCompute` constructor performs is modelled from the spec
where noted.  All methods are modelled under the precondition that
`hoomd.init.is_initialized()` holds, which `_force.__init__` enforces
before any of the behaviour studied here.
-/

namespace HoomdMD

/-- A raised Python `RuntimeError`, identified by its message string
(`raise RuntimeError()` with no argument carries the empty message). -/
inductive PyError where
  | runtimeError (msg : String) : PyError
deriving DecidableEq, Repr

deriving instance DecidableEq for Except

/-- Error raised by `_force.check_initialization` when `cpp_force is None`:
the source calls `raise RuntimeError()` after printing a bug message. -/
def uninitError : PyError := .runtimeError ""

/-- Error raised by `active.__init__` on a malformed force-vector list. -/
def flstError : PyError :=
  .runtimeError "Active force passed in should be a list of 3-tuples (fx, fy, fz)"

/-- Error raised by `active.__init__` on a non-ellipsoid constraint. -/
def constraintError : PyError :=
  .runtimeError "Active force constraint is not accepted (currently only accepts ellipsoids)"

/-- Modelled from the spec: InvalidConfiguration raised by the native
`ActiveForceCompute` constructor (absent from src/) for a negative
rotational diffusion constant. -/
def negRotationDiffError : PyError :=
  .runtimeError "InvalidConfiguration: rotation_diff must be non-negative"

/-- Modelled from the spec: InvalidConfiguration raised by the native
`ActiveForceCompute` constructor (absent from src/) for an empty group. -/
def emptyGroupError : PyError :=
  .runtimeError "InvalidConfiguration: group is empty"

/-- The system-side compute registry: the association of force names to
native compute objects held by `hoomd.context.current.system`.  Native
compute objects are identified by a `Nat` handle. -/
structure SysState where
  computes : List (String × Nat)
deriving DecidableEq, Repr

/-- `system.addCompute(cpp_force, force_name)`: registers the compute. -/
def addCompute (sys : SysState) (c : Nat) (nm : String) : SysState :=
  ⟨sys.computes ++ [(nm, c)]⟩

/-- `system.removeCompute(force_name)`: deregisters the compute. -/
def removeCompute (sys : SysState) (nm : String) : SysState :=
  ⟨sys.computes.filter (fun p => p.1 ≠ nm)⟩

/-- A force name contributes to the dynamics (net force) exactly when a
compute is registered in the system under that name. -/
def registered (sys : SysState) (nm : String) : Bool :=
  sys.computes.any (fun p => p.1 = nm)

/-- The mutable attributes of a Python `_force` object relevant to the
enable / disable / benchmark lifecycle.  `cpp_force` is `none` until a
subclass constructor builds the native compute; after `_force.__init__`
the flags are `enabled = True`, `log = True`. -/
structure ForceState where
  cpp_force : Option Nat
  force_name : String
  enabled : Bool
  log : Bool
deriving DecidableEq, Repr

/-- `_force.__init__` (the attribute state it leaves behind):
`cpp_force = None`, `enabled = True`, `log = True`, and
`force_name = "force%d" % id`. -/
def force_init (nm : String) : ForceState :=
  { cpp_force := none, force_name := nm, enabled := true, log := true }

/-- `_force.check_initialization`: raises when `cpp_force is None`. -/
def check_initialization (f : ForceState) : Except PyError Unit :=
  match f.cpp_force with
  | none => .error uninitError
  | some _ => .ok ()

/-- `_force.disable(log)`.  Returns the updated force, the updated
system, and whether the already-disabled warning was emitted. -/
def disable (f : ForceState) (sys : SysState) (log : Bool) :
    Except PyError (ForceState × SysState × Bool) :=
  match f.cpp_force with
  | none => .error uninitError
  | some _ =>
    if f.enabled = false then
      .ok (f, sys, true)
    else
      let f' : ForceState := { f with enabled := false, log := log }
      if log = false then
        .ok (f', removeCompute sys f.force_name, false)
      else
        .ok (f', sys, false)

/-- `_force.enable()`.  Returns the updated force, the updated system,
and whether the already-enabled warning was emitted. -/
def enable (f : ForceState) (sys : SysState) :
    Except PyError (ForceState × SysState × Bool) :=
  match f.cpp_force with
  | none => .error uninitError
  | some c =>
    if f.enabled = true then
      .ok (f, sys, true)
    else
      let sys' : SysState := if f.log = false then addCompute sys c f.force_name else sys
      .ok ({ f with enabled := true, log := true }, sys', false)

/-- `_force.benchmark(n)`: after the initialization check it delegates
to the native compute; the model returns the delegated call's arguments
(compute handle, iteration count) rather than executing it. -/
def benchmark (f : ForceState) (n : Nat) : Except PyError (Nat × Nat) :=
  match f.cpp_force with
  | none => .error uninitError
  | some c => .ok (c, n)

/-- A call forwarded to the native `ConstForceCompute` by
`constant.set_force`. -/
inductive CppCall where
  | setForce (fx fy fz : ℚ) : CppCall
  | setGroupForce (g : Nat) (fx fy fz : ℚ) : CppCall
deriving DecidableEq, Repr

/-- The attributes of a Python `force.constant` object: the underlying
`_force` state plus the stored `fx`, `fy`, `fz` components. -/
structure ConstantForce where
  force : ForceState
  fx : ℚ
  fy : ℚ
  fz : ℚ
deriving DecidableEq, Repr

/-- `constant.set_force(fx, fy, fz, group)`: checks initialization,
forwards `setGroupForce` when a group is supplied and `setForce`
otherwise, then stores the new components. -/
def set_force (cf : ConstantForce) (fx fy fz : ℚ) (group : Option Nat) :
    Except PyError (ConstantForce × CppCall) :=
  match cf.force.cpp_force with
  | none => .error uninitError
  | some _ =>
    match group with
    | some g => .ok ({ cf with fx := fx, fy := fy, fz := fz }, .setGroupForce g fx fy fz)
    | none => .ok ({ cf with fx := fx, fy := fy, fz := fz }, .setForce fx fy fz)

/-- A Python value appearing as an element of the `f_lst` argument:
either a tuple of numbers, a list of numbers, or some other object
(identified by a handle).  `type(element) != tuple` holds exactly for
the non-`tupleV` constructors. -/
inductive PyVal where
  | tupleV (xs : List ℚ) : PyVal
  | listV (xs : List ℚ) : PyVal
  | otherV (n : Nat) : PyVal
deriving DecidableEq, Repr

/-- `type(element) == tuple and len(element) == 3`: the condition an
`f_lst` element must satisfy in `active.__init__`. -/
def isThreeTuple : PyVal → Bool
  | .tupleV xs => xs.length == 3
  | .listV _ => false
  | .otherV _ => false

/-- The `for element in f_lst` input-check loop of `active.__init__`:
raises on the first element that is not a 3-tuple. -/
def checkFLstLoop : List PyVal → Except PyError Unit
  | [] => .ok ()
  | e :: rest =>
    if isThreeTuple e then checkFLstLoop rest else .error flstError

/-- The `if (f_lst is not None)` input-check of `active.__init__`. -/
def checkFLst : Option (List PyVal) → Except PyError Unit
  | none => .ok ()
  | some l => checkFLstLoop l

/-- A Python constraint object as seen by `active.__init__`: its class
name and the ellipsoid fields `P`, `rx`, `ry`, `rz` it exposes. -/
structure ConstraintObj where
  className : String
  P : ℚ × ℚ × ℚ
  rx : ℚ
  ry : ℚ
  rz : ℚ
deriving DecidableEq, Repr

/-- The `# assign constraints` block of `active.__init__`: an ellipsoid
constraint supplies its center and semi-axes, no constraint defaults to
center `(0,0,0)` and semi-axes `0`, any other constraint raises. -/
def resolveConstraint (constraint : Option ConstraintObj) :
    Except PyError ((ℚ × ℚ × ℚ) × ℚ × ℚ × ℚ) :=
  match constraint with
  | some c =>
    if c.className = "constraint_ellipsoid" then
      .ok (c.P, c.rx, c.ry, c.rz)
    else
      .error constraintError
  | none => .ok ((0, 0, 0), 0, 0, 0)

/-- Modelled from the spec: InvalidInput raised by the native
`ActiveForceCompute` constructor (absent from src/) when an initial
orientation vector has zero magnitude (undefined direction). -/
def zeroMagnitudeError : PyError :=
  .runtimeError "InvalidInput: initial orientation vector has zero magnitude"

/-- Modelled from the spec: a force vector of zero magnitude, i.e. all
components zero, whose orientation (direction) is undefined.  The
initial orientations are derived from the `f_lst` force vectors. -/
def hasZeroMagnitude : PyVal → Bool
  | .tupleV xs => xs.all (fun x => x = 0)
  | .listV xs => xs.all (fun x => x = 0)
  | .otherV _ => false

/-- Modelled from the spec: the validation performed by the native
`ActiveForceCompute` constructor, which is absent from src/ (only its
call site in `active.__init__` is present).  Per the spec it fails with
InvalidConfiguration if the rotational diffusion constant is negative
or if the group is empty, and with InvalidInput if any initial
orientation vector (derived from the `f_lst` force vectors) has zero
magnitude. -/
def ActiveForceCompute_validate (group : List Nat) (rotation_diff : ℚ)
    (f_lst : Option (List PyVal)) : Except PyError Unit :=
  if rotation_diff < 0 then .error negRotationDiffError
  else if group = [] then .error emptyGroupError
  else if (f_lst.getD []).any hasZeroMagnitude then .error zeroMagnitudeError
  else .ok ()

/-- The attributes of a Python `force.active` object after a successful
`__init__`, together with the constraint geometry forwarded to the
native engine (`P`, `rx`, `ry`, `rz` arguments of the
`ActiveForceCompute` call). -/
structure ActiveForce where
  force : ForceState
  seed : Nat
  group : List Nat
  orientation_link : Bool
  rotation_diff : ℚ
  constraint : Option ConstraintObj
  engineP : ℚ × ℚ × ℚ
  engineRx : ℚ
  engineRy : ℚ
  engineRz : ℚ
deriving DecidableEq, Repr

/-- `active.__init__` after the base `_force.__init__` call: the input
check on `f_lst`, the constraint resolution, the native compute
construction (its validation modelled from the spec), and finally the
`addCompute` registration.  Returns the system state after the call
(unchanged when an error is raised, since registration comes last) and
either the constructed force or the raised error.  `newId` is the
handle of the native compute built on success and `nm` the
`force_name` assigned by the base class. -/
def active_init (sys : SysState) (seed : Nat) (f_lst : Option (List PyVal))
    (group : List Nat) (orientation_link : Bool) (rotation_diff : ℚ)
    (constraint : Option ConstraintObj) (newId : Nat) (nm : String) :
    SysState × Except PyError ActiveForce :=
  match checkFLst f_lst with
  | .error e => (sys, .error e)
  | .ok _ =>
    match resolveConstraint constraint with
    | .error e => (sys, .error e)
    | .ok (P, rx, ry, rz) =>
      match ActiveForceCompute_validate group rotation_diff f_lst with
      | .error e => (sys, .error e)
      | .ok _ =>
        let af : ActiveForce :=
          { force := { cpp_force := some newId, force_name := nm,
                       enabled := true, log := true },
            seed := seed, group := group, orientation_link := orientation_link,
            rotation_diff := rotation_diff, constraint := constraint,
            engineP := P, engineRx := rx, engineRy := ry, engineRz := rz }
        (addCompute sys newId nm, .ok af)

/-- An enable / disable call on a force, for reasoning about sequences
of lifecycle operations. -/
inductive ForceOp where
  | disableOp (log : Bool) : ForceOp
  | enableOp : ForceOp
deriving DecidableEq, Repr

/-- Applies one lifecycle operation to a (force, system) pair; a raised
error leaves the Python-visible state unchanged. -/
def applyOp (st : ForceState × SysState) (op : ForceOp) : ForceState × SysState :=
  match op with
  | .disableOp lg =>
    match disable st.1 st.2 lg with
    | .ok (f, s, _) => (f, s)
    | .error _ => st
  | .enableOp =>
    match enable st.1 st.2 with
    | .ok (f, s, _) => (f, s)
    | .error _ => st

/-- The invariant that a force's `log` flag is `True` whenever the force
is enabled. -/
def logInv (f : ForceState) : Prop :=
  f.enabled = true → f.log = true

/-- Modelled from the spec: one step of the active-force engine over a
processing order (a parallel decomposition of the group).  The native
kernel (`_md.ActiveForceCompute`, absent from src/) updates each
particle of the group independently; per the spec its random state is a
pure function of (seed, particle tag, timestep), so the per-particle
update is abstracted as a pure function `u` of the seed, the timestep,
the particle's tag, and that particle's own state.  `runStepOrder`
folds the update over the tags in the order a given decomposition
processes them; the state maps tags to per-particle values. -/
def runStepOrder (u : Nat → Nat → Nat → Nat → Nat) (seed t : Nat)
    (order : List Nat) (s : Nat → Nat) : Nat → Nat :=
  order.foldl (fun st tag => fun j => if j = tag then u seed t tag (st tag) else st j) s

/-- Modelled from the spec: a run of the active-force engine over a
timestep sequence, each step executed under its own processing order
(parallel decomposition).  Returns the trajectory: the per-particle
state after every step. -/
def runTraj (u : Nat → Nat → Nat → Nat → Nat) (seed : Nat) :
    List (Nat × List Nat) → (Nat → Nat) → List (Nat → Nat)
  | [], _ => []
  | (t, order) :: rest, s =>
    let s' := runStepOrder u seed t order s
    s' :: runTraj u seed rest s'

/-! ### Helper lemmas -/

lemma registered_removeCompute (sys : SysState) (nm : String) :
    registered (removeCompute sys nm) nm = false := by
  simp only [registered, removeCompute, List.any_eq_false]
  intro p hp
  have := List.of_mem_filter hp
  simpa using this

lemma registered_addCompute (sys : SysState) (c : Nat) (nm : String) :
    registered (addCompute sys c nm) nm = true := by
  simp [registered, addCompute]

lemma checkFLstLoop_ok_iff (l : List PyVal) :
    checkFLstLoop l = .ok () ↔ ∀ e ∈ l, isThreeTuple e = true := by
  induction l with
  | nil => simp [checkFLstLoop]
  | cons e rest ih =>
    by_cases he : isThreeTuple e = true
    · simp [checkFLstLoop, he, ih]
    · simp [checkFLstLoop, he]

lemma checkFLstLoop_error_iff (l : List PyVal) :
    checkFLstLoop l = .error flstError ↔ ∃ e ∈ l, isThreeTuple e = false := by
  induction l with
  | nil => simp [checkFLstLoop]
  | cons e rest ih =>
    by_cases he : isThreeTuple e = true
    · simp [checkFLstLoop, he, ih]
    · simp only [Bool.not_eq_true] at he
      simp [checkFLstLoop, he]

lemma checkFLstLoop_cases (l : List PyVal) :
    checkFLstLoop l = .ok () ∨ checkFLstLoop l = .error flstError := by
  induction l with
  | nil => exact Or.inl rfl
  | cons e rest ih =>
    by_cases he : isThreeTuple e = true
    · simpa [checkFLstLoop, he] using ih
    · simp [checkFLstLoop, he]

lemma validate_cases (group : List Nat) (rd : ℚ) (fl : Option (List PyVal)) :
    ActiveForceCompute_validate group rd fl = .ok () ∨
    ActiveForceCompute_validate group rd fl = .error negRotationDiffError ∨
    ActiveForceCompute_validate group rd fl = .error emptyGroupError ∨
    ActiveForceCompute_validate group rd fl = .error zeroMagnitudeError := by
  unfold ActiveForceCompute_validate
  by_cases h1 : rd < 0
  · simp [h1]
  · by_cases h2 : group = []
    · simp [h1, h2]
    · by_cases h3 : (fl.getD []).any hasZeroMagnitude = true
      · simp [h1, h2, h3]
      · simp [h1, h2, h3]

lemma active_init_flst_ok_ne (sys : SysState) (seed : Nat)
    (f_lst : Option (List PyVal)) (group : List Nat) (ol : Bool) (rd : ℚ)
    (c : Option ConstraintObj) (newId : Nat) (nm : String)
    (hok : checkFLst f_lst = .ok ()) :
    (active_init sys seed f_lst group ol rd c newId nm).2 ≠ .error flstError := by
  intro h
  unfold active_init at h
  simp only [hok] at h
  rcases c with _ | co
  · simp only [resolveConstraint] at h
    rcases validate_cases group rd f_lst with hv | hv | hv | hv <;>
      simp only [hv] at h <;>
      first
      | exact absurd h (by decide)
      | simp at h
  · by_cases hco : co.className = "constraint_ellipsoid"
    · simp only [resolveConstraint, if_pos hco] at h
      rcases validate_cases group rd f_lst with hv | hv | hv | hv <;>
        simp only [hv] at h <;>
        first
        | exact absurd h (by decide)
        | simp at h
    · simp only [resolveConstraint, if_neg hco] at h
      exact absurd h (by decide)

lemma runStepOrder_eq_of_nodup (u : Nat → Nat → Nat → Nat → Nat) (seed t : Nat)
    (order : List Nat) (s : Nat → Nat) (h : order.Nodup) :
    runStepOrder u seed t order s =
      fun j => if j ∈ order then u seed t j (s j) else s j := by
  induction order generalizing s with
  | nil => funext j; simp [runStepOrder]
  | cons tag rest ih =>
    have htag : tag ∉ rest := (List.nodup_cons.mp h).1
    have hrest : rest.Nodup := (List.nodup_cons.mp h).2
    have hstep : runStepOrder u seed t (tag :: rest) s =
        runStepOrder u seed t rest
          (fun j => if j = tag then u seed t tag (s tag) else s j) := rfl
    rw [hstep, ih _ hrest]
    funext j
    by_cases hjr : j ∈ rest
    · have hjt : j ≠ tag := fun hje => htag (hje ▸ hjr)
      simp [hjr, hjt, List.mem_cons]
    · by_cases hjt : j = tag
      · subst hjt
        simp [hjr]
      · simp [hjr, hjt, List.mem_cons]

lemma runStepOrder_perm (u : Nat → Nat → Nat → Nat → Nat) (seed t : Nat)
    (o1 o2 : List Nat) (s : Nat → Nat) (h1 : o1.Nodup) (h12 : o1.Perm o2) :
    runStepOrder u seed t o1 s = runStepOrder u seed t o2 s := by
  rw [runStepOrder_eq_of_nodup u seed t o1 s h1,
    runStepOrder_eq_of_nodup u seed t o2 s (h12.nodup h1)]
  funext j
  by_cases hj : j ∈ o1
  · simp [hj, h12.mem_iff.mp hj]
  · have hj2 : j ∉ o2 := fun hc => hj (h12.mem_iff.mpr hc)
    simp [hj, hj2]

lemma applyOp_logInv (st : ForceState × SysState) (op : ForceOp)
    (h : logInv st.1) : logInv (applyOp st op).1 := by
  cases op with
  | disableOp lg =>
    dsimp only [applyOp]
    cases hc : st.1.cpp_force with
    | none => simpa [disable, hc] using h
    | some c =>
      by_cases he : st.1.enabled = false
      · simpa [disable, hc, he] using h
      · by_cases hlg : lg = false
        · simp [disable, hc, he, hlg, logInv]
        · simp [disable, hc, he, hlg, logInv]
  | enableOp =>
    dsimp only [applyOp]
    cases hc : st.1.cpp_force with
    | none => simpa [enable, hc] using h
    | some c =>
      by_cases he : st.1.enabled = true
      · simpa [enable, hc, he] using h
      · simp [enable, hc, he, logInv]

lemma foldl_applyOp_logInv (ops : List ForceOp) (st : ForceState × SysState)
    (h : logInv st.1) : logInv (List.foldl applyOp st ops).1 := by
  induction ops generalizing st with
  | nil => exact h
  | cons op rest ih => exact ih _ (applyOp_logInv st op h)

/-! ### Claim theorems -/

/-- Claim C1: constructing an active force with a negative rotational
diffusion constant (`rotation_diff < 0`) fails at construction with a
configuration error, and the error is raised before the force is set
up: the system's compute registry is left unchanged, so the force is
never registered (and hence never recovered from). -/
theorem active_negative_rotation_diff_fails (sys : SysState) (seed : Nat)
    (f_lst : Option (List PyVal)) (group : List Nat) (ol : Bool) (rd : ℚ)
    (c : Option ConstraintObj) (newId : Nat) (nm : String) (h : rd < 0) :
    (∃ e, (active_init sys seed f_lst group ol rd c newId nm).2 = .error e) ∧
    (active_init sys seed f_lst group ol rd c newId nm).1 = sys := by
  unfold active_init
  cases hf : checkFLst f_lst with
  | error e => exact ⟨⟨e, rfl⟩, rfl⟩
  | ok u =>
    cases hc : resolveConstraint c with
    | error e => exact ⟨⟨e, rfl⟩, rfl⟩
    | ok v =>
      obtain ⟨P, rx, ry, rz⟩ := v
      simp only [ActiveForceCompute_validate, if_pos h]
      exact ⟨⟨negRotationDiffError, rfl⟩, trivial⟩

/-- Witness for C1 at `rotation_diff = -1`. -/
theorem active_negative_rotation_diff_fails_witness :
    (∃ e, (active_init ⟨[]⟩ 7 none [0] true (-1) none 0 "force0").2 = .error e) ∧
    (active_init ⟨[]⟩ 7 none [0] true (-1) none 0 "force0").1 = ⟨[]⟩ :=
  active_negative_rotation_diff_fails ⟨[]⟩ 7 none [0] true (-1) none 0 "force0"
    (by decide)

/-- Claim C2: for an initialized, enabled force, `disable(log=False)`
removes its compute from the system (so nothing is registered under its
force name afterwards), and a subsequent `enable()` re-adds the same
compute handle under the same force name and returns the force to
exactly its original attribute state. -/
theorem disable_enable_round_trip (f : ForceState) (sys : SysState) (c : Nat)
    (hc : f.cpp_force = some c) (he : f.enabled = true) (hl : f.log = true) :
    disable f sys false =
      .ok ({ f with enabled := false, log := false },
        removeCompute sys f.force_name, false) ∧
    registered (removeCompute sys f.force_name) f.force_name = false ∧
    enable { f with enabled := false, log := false }
        (removeCompute sys f.force_name) =
      .ok (f, addCompute (removeCompute sys f.force_name) c f.force_name, false) ∧
    registered (addCompute (removeCompute sys f.force_name) c f.force_name)
      f.force_name = true := by
  obtain ⟨cf, fn, en, lg⟩ := f
  simp only at hc he hl
  subst hc he hl
  refine ⟨by simp [disable], registered_removeCompute sys fn, ?_,
    registered_addCompute (removeCompute ⟨sys.computes⟩ fn) c fn⟩
  simp [enable]

/-- Witness for C2 on a concrete enabled force. -/
theorem disable_enable_round_trip_witness :
    disable ⟨some 5, "force0", true, true⟩ ⟨[("force0", 5)]⟩ false =
      .ok (⟨some 5, "force0", false, false⟩,
        removeCompute ⟨[("force0", 5)]⟩ "force0", false) ∧
    registered (removeCompute ⟨[("force0", 5)]⟩ "force0") "force0" = false ∧
    enable ⟨some 5, "force0", false, false⟩ (removeCompute ⟨[("force0", 5)]⟩ "force0") =
      .ok (⟨some 5, "force0", true, true⟩,
        addCompute (removeCompute ⟨[("force0", 5)]⟩ "force0") 5 "force0", false) ∧
    registered (addCompute (removeCompute ⟨[("force0", 5)]⟩ "force0") 5 "force0")
      "force0" = true :=
  disable_enable_round_trip ⟨some 5, "force0", true, true⟩ ⟨[("force0", 5)]⟩ 5
    rfl rfl rfl

/-- Claim C3: for an initialized, enabled force, `disable(log=True)`
leaves the system's compute registry untouched (the compute stays
registered and available for logging) while turning the `enabled` flag
off, so the force no longer contributes to the dynamics; the `log`
flag stays `True`. -/
theorem disable_log_keeps_compute (f : ForceState) (sys : SysState) (c : Nat)
    (hc : f.cpp_force = some c) (he : f.enabled = true) :
    disable f sys true = .ok ({ f with enabled := false, log := true }, sys, false) := by
  simp [disable, hc, he]

/-- Witness for C3 on a concrete enabled force. -/
theorem disable_log_keeps_compute_witness :
    disable ⟨some 5, "force0", true, true⟩ ⟨[("force0", 5)]⟩ true =
      .ok (⟨some 5, "force0", false, true⟩, ⟨[("force0", 5)]⟩, false) :=
  disable_log_keeps_compute ⟨some 5, "force0", true, true⟩ ⟨[("force0", 5)]⟩ 5
    rfl rfl

/-- Claim C4: on a force whose native compute does not yet exist
(`cpp_force is None`), every control call — `enable`, `disable`,
`benchmark`, and `constant.set_force` — raises the
`check_initialization` error immediately. -/
theorem uninitialized_calls_fail (f : ForceState) (sys : SysState) (lg : Bool)
    (n : Nat) (cf : ConstantForce) (fx fy fz : ℚ) (g : Option Nat)
    (hf : f.cpp_force = none) (hcf : cf.force.cpp_force = none) :
    enable f sys = .error uninitError ∧
    disable f sys lg = .error uninitError ∧
    benchmark f n = .error uninitError ∧
    set_force cf fx fy fz g = .error uninitError := by
  refine ⟨?_, ?_, ?_, ?_⟩ <;> simp [enable, disable, benchmark, set_force, hf, hcf]

/-- Witness for C4 on freshly constructed (pre-compute) forces. -/
theorem uninitialized_calls_fail_witness :
    enable (force_init "force0") ⟨[]⟩ = .error uninitError ∧
    disable (force_init "force0") ⟨[]⟩ false = .error uninitError ∧
    benchmark (force_init "force0") 100 = .error uninitError ∧
    set_force ⟨force_init "force1", 1, 2, 3⟩ 4 5 6 none = .error uninitError :=
  uninitialized_calls_fail (force_init "force0") ⟨[]⟩ false 100
    ⟨force_init "force1", 1, 2, 3⟩ 4 5 6 none rfl rfl

/-- Claim C5: (a) an active force constructed with a constraint object
whose class is not `constraint_ellipsoid` fails at construction with the
constraint error and registers nothing; (b) with no constraint (and
otherwise valid arguments: non-negative diffusion constant, non-empty
group, no zero-magnitude initial force vector) construction succeeds
and the engine is configured with center `(0,0,0)` and all three
semi-axes `0`. -/
theorem active_constraint_handling (sys : SysState) (seed : Nat)
    (f_lst : Option (List PyVal)) (group : List Nat) (ol : Bool) (rd : ℚ)
    (newId : Nat) (nm : String) (hfl : checkFLst f_lst = .ok ()) :
    (∀ co : ConstraintObj, co.className ≠ "constraint_ellipsoid" →
      active_init sys seed f_lst group ol rd (some co) newId nm =
        (sys, .error constraintError)) ∧
    (0 ≤ rd → group ≠ [] →
      (f_lst.getD []).any hasZeroMagnitude = false →
      ∃ af : ActiveForce,
        (active_init sys seed f_lst group ol rd none newId nm).2 = .ok af ∧
        af.engineP = (0, 0, 0) ∧ af.engineRx = 0 ∧ af.engineRy = 0 ∧
        af.engineRz = 0) := by
  constructor
  · intro co hco
    unfold active_init
    simp only [hfl]
    simp [resolveConstraint, hco]
  · intro hrd hgroup hz
    unfold active_init
    simp only [hfl]
    have h1 : resolveConstraint none = .ok ((0, 0, 0), 0, 0, 0) := rfl
    have h2 : ActiveForceCompute_validate group rd f_lst = .ok () := by
      unfold ActiveForceCompute_validate
      rw [if_neg (not_lt.mpr hrd), if_neg hgroup]
      simp [hz]
    simp only [h1, h2]
    exact ⟨_, rfl, rfl, rfl, rfl, rfl⟩

/-- Witness for C5: a non-ellipsoid constraint is rejected; no
constraint (with a nonzero force vector) yields the all-zero default
geometry. -/
theorem active_constraint_handling_witness :
    active_init ⟨[]⟩ 7 (some [PyVal.tupleV [1, 0, 0]]) [0] false 0
        (some ⟨"constraint_sphere", (0, 0, 0), 1, 1, 1⟩) 0 "force0" =
      (⟨[]⟩, .error constraintError) ∧
    (∃ af : ActiveForce,
      (active_init ⟨[]⟩ 7 (some [PyVal.tupleV [1, 0, 0]]) [0] false 0
        none 0 "force0").2 = .ok af ∧
      af.engineP = (0, 0, 0) ∧ af.engineRx = 0 ∧ af.engineRy = 0 ∧
      af.engineRz = 0) :=
  ⟨(active_constraint_handling ⟨[]⟩ 7 (some [PyVal.tupleV [1, 0, 0]]) [0] false 0
      0 "force0" rfl).1 ⟨"constraint_sphere", (0, 0, 0), 1, 1, 1⟩ (by decide),
   (active_constraint_handling ⟨[]⟩ 7 (some [PyVal.tupleV [1, 0, 0]]) [0] false 0
      0 "force0" rfl).2 (by decide) (by decide) (by decide)⟩

/-- Claim C6: with a non-`None` force-vector list, `active.__init__`
fails with the malformed-list error exactly when some element of the
list is not a tuple of length 3; a list whose elements are all 3-tuples
passes this input check. -/
theorem active_flst_check (sys : SysState) (seed : Nat) (l : List PyVal)
    (group : List Nat) (ol : Bool) (rd : ℚ) (c : Option ConstraintObj)
    (newId : Nat) (nm : String) :
    (active_init sys seed (some l) group ol rd c newId nm).2 = .error flstError ↔
      ∃ e ∈ l, isThreeTuple e = false := by
  constructor
  · intro h
    rcases checkFLstLoop_cases l with hok | herr
    · exact absurd h (active_init_flst_ok_ne sys seed (some l) group ol rd c
        newId nm hok)
    · exact (checkFLstLoop_error_iff l).mp herr
  · intro hbad
    have herr : checkFLstLoop l = .error flstError :=
      (checkFLstLoop_error_iff l).mpr hbad
    unfold active_init checkFLst
    simp only [herr]

/-- Witness for C6 on a list containing a non-tuple element. -/
theorem active_flst_check_witness :
    ((active_init ⟨[]⟩ 13 (some [PyVal.tupleV [3, 0, 0], PyVal.listV [1, 2, 3]])
        [0] true 0 none 0 "force0").2 = .error flstError) ↔
      ∃ e ∈ [PyVal.tupleV [3, 0, 0], PyVal.listV [1, 2, 3]],
        isThreeTuple e = false :=
  active_flst_check ⟨[]⟩ 13 [PyVal.tupleV [3, 0, 0], PyVal.listV [1, 2, 3]]
    [0] true 0 none 0 "force0"

/-- Claim C7: on an initialized constant force, `set_force` forwards the
new components to the underlying compute — `setGroupForce` on the given
group when one is supplied, `setForce` (all particles) otherwise — and
the stored `fx`, `fy`, `fz` attributes equal the new values
afterwards. -/
theorem set_force_updates (cf : ConstantForce) (c : Nat) (fx fy fz : ℚ)
    (hc : cf.force.cpp_force = some c) :
    (∀ g : Nat, set_force cf fx fy fz (some g) =
      .ok ({ cf with fx := fx, fy := fy, fz := fz }, .setGroupForce g fx fy fz)) ∧
    set_force cf fx fy fz none =
      .ok ({ cf with fx := fx, fy := fy, fz := fz }, .setForce fx fy fz) ∧
    ({ cf with fx := fx, fy := fy, fz := fz } : ConstantForce).fx = fx ∧
    ({ cf with fx := fx, fy := fy, fz := fz } : ConstantForce).fy = fy ∧
    ({ cf with fx := fx, fy := fy, fz := fz } : ConstantForce).fz = fz := by
  refine ⟨fun g => ?_, ?_, rfl, rfl, rfl⟩ <;> simp [set_force, hc]

/-- Witness for C7 on a concrete constant force, both with and without
a group argument. -/
theorem set_force_updates_witness :
    set_force ⟨⟨some 9, "force2", true, true⟩, 0, 0, 0⟩ 2 1 (-5) (some 3) =
      .ok (⟨⟨some 9, "force2", true, true⟩, 2, 1, -5⟩,
        .setGroupForce 3 2 1 (-5)) ∧
    set_force ⟨⟨some 9, "force2", true, true⟩, 0, 0, 0⟩ 2 1 (-5) none =
      .ok (⟨⟨some 9, "force2", true, true⟩, 2, 1, -5⟩, .setForce 2 1 (-5)) :=
  ⟨(set_force_updates ⟨⟨some 9, "force2", true, true⟩, 0, 0, 0⟩ 9 2 1 (-5) rfl).1 3,
   (set_force_updates ⟨⟨some 9, "force2", true, true⟩, 0, 0, 0⟩ 9 2 1 (-5) rfl).2.1⟩

/-- Claim C8: two runs of the (spec-modelled) active-force engine with
identical seed, group, initial state and timestep sequence produce
identical trajectories, independent of the parallel decomposition: the
processing orders of the two runs may differ arbitrarily, as long as
each is a decomposition (permutation) of the same group, and this holds
for every per-particle update function `u` of (seed, timestep, tag,
state). -/
theorem active_determinism (u : Nat → Nat → Nat → Nat → Nat) (seed : Nat)
    (group : List Nat) (s : Nat → Nat) (steps1 steps2 : List (Nat × List Nat))
    (hg : group.Nodup) (ht : steps1.map Prod.fst = steps2.map Prod.fst)
    (h1 : ∀ p ∈ steps1, p.2.Perm group) (h2 : ∀ p ∈ steps2, p.2.Perm group) :
    runTraj u seed steps1 s = runTraj u seed steps2 s := by
  induction steps1 generalizing steps2 s with
  | nil =>
    cases steps2 with
    | nil => rfl
    | cons q qs => simp at ht
  | cons p ps ih =>
    cases steps2 with
    | nil => simp at ht
    | cons q qs =>
      obtain ⟨t1, o1⟩ := p
      obtain ⟨t2, o2⟩ := q
      simp only [List.map_cons, List.cons.injEq] at ht
      obtain ⟨hts, htl⟩ := ht
      subst hts
      have ho1 : o1.Perm group := h1 (t1, o1) (by simp)
      have ho2 : o2.Perm group := h2 (t1, o2) (by simp)
      have hstep : runStepOrder u seed t1 o1 s = runStepOrder u seed t1 o2 s :=
        runStepOrder_perm u seed t1 o1 o2 s (ho1.symm.nodup hg)
          (ho1.trans ho2.symm)
      show runStepOrder u seed t1 o1 s :: runTraj u seed ps (runStepOrder u seed t1 o1 s) =
        runStepOrder u seed t1 o2 s :: runTraj u seed qs (runStepOrder u seed t1 o2 s)
      rw [hstep, ih (runStepOrder u seed t1 o2 s) qs htl
        (fun r hr => h1 r (List.mem_cons_of_mem _ hr))
        (fun r hr => h2 r (List.mem_cons_of_mem _ hr))]

/-- Witness for C8: the same two-step run executed under two different
particle processing orders yields the same trajectory. -/
theorem active_determinism_witness :
    runTraj (fun a b c d => a + b + c + d) 7 [(0, [0, 1]), (1, [0, 1])]
        (fun _ => 0) =
      runTraj (fun a b c d => a + b + c + d) 7 [(0, [1, 0]), (1, [1, 0])]
        (fun _ => 0) :=
  active_determinism (fun a b c d => a + b + c + d) 7 [0, 1] (fun _ => 0)
    [(0, [0, 1]), (1, [0, 1])] [(0, [1, 0]), (1, [1, 0])]
    (by decide) rfl (by decide) (by decide)

/-- Claim C9: the invariant that an enabled force has `log = True` holds
after `_force.__init__` and is preserved by every sequence of `enable`
and `disable` calls; a force can have `log = False` only while
disabled. -/
theorem enabled_implies_log (nm : String) (f0 : ForceState) (sys0 : SysState)
    (ops : List ForceOp) (h : logInv f0) :
    logInv (force_init nm) ∧ logInv (List.foldl applyOp (f0, sys0) ops).1 :=
  ⟨fun _ => rfl, foldl_applyOp_logInv ops (f0, sys0) h⟩

/-- Witness for C9 on a concrete initialized force and a
disable-then-enable sequence. -/
theorem enabled_implies_log_witness :
    logInv (force_init "force0") ∧
    logInv (List.foldl applyOp
      (⟨some 3, "force0", true, true⟩, ⟨[("force0", 3)]⟩)
      [ForceOp.disableOp false, ForceOp.enableOp]).1 :=
  enabled_implies_log "force0" ⟨some 3, "force0", true, true⟩ ⟨[("force0", 3)]⟩
    [ForceOp.disableOp false, ForceOp.enableOp] (fun _ => rfl)

/-- Claim C10: on an initialized force, `disable` when already disabled
and `enable` when already enabled are no-ops apart from the warning:
the force's flags (including `log`) and the system's compute registry
are returned unchanged, whatever `log` argument is passed to
`disable`. -/
theorem redundant_toggle_noop (f : ForceState) (sys : SysState) (c : Nat)
    (lg : Bool) (hc : f.cpp_force = some c) :
    (f.enabled = false → disable f sys lg = .ok (f, sys, true)) ∧
    (f.enabled = true → enable f sys = .ok (f, sys, true)) := by
  constructor
  · intro he
    simp [disable, hc, he]
  · intro he
    simp [enable, hc, he]

/-- Witness for C10: `disable(log=False)` on a force previously disabled
with `log=True` changes nothing, and `enable` on an enabled force
changes nothing. -/
theorem redundant_toggle_noop_witness :
    disable ⟨some 4, "force1", false, true⟩ ⟨[("force1", 4)]⟩ false =
      .ok (⟨some 4, "force1", false, true⟩, ⟨[("force1", 4)]⟩, true) ∧
    enable ⟨some 5, "force2", true, true⟩ ⟨[("force2", 5)]⟩ =
      .ok (⟨some 5, "force2", true, true⟩, ⟨[("force2", 5)]⟩, true) :=
  ⟨(redundant_toggle_noop ⟨some 4, "force1", false, true⟩ ⟨[("force1", 4)]⟩ 4
      false rfl).1 rfl,
   (redundant_toggle_noop ⟨some 5, "force2", true, true⟩ ⟨[("force2", 5)]⟩ 5
      false rfl).2 rfl⟩

end HoomdMD
